import Mathlib

/-!
Verification of the particle transition and animation engine of the
interactive 3D holiday particle display (React / three.js repository).

The definitions below are a shallow embedding of the source code:

* `damp`, `progressIter`, `easeT` — the per-frame damped transition update
  (`MathUtils.damp`, which in three.js is
  `lerp(x, y, 1 - exp(-lambda*dt))`) and the smoothstep easing used by the
  `useFrame` callbacks of `LuxuryTree` (Experience.tsx) and `ArixTree`
  (HandController.tsx).
* `randomInCone`, `randomInConeArix` — the formed-configuration cone
  generators, with the calls to `Math.random()` made explicit as arguments
  `u1 u2 u3 ∈ [0,1)`.
* `FocusState` / `focusTick` / `runTicks` / `toggleCount` — the one-shot
  `triggerFocus` consumption in `LuxuryTree`'s `useFrame`.
* `PinchState` / `pinchStart` — the double-pinch derivation in
  `HandController.predict`.
* `TreeState` / `pollStep` / `writesResult` / `pollInterval` — the 100ms
  mode-confirmation poll in `App`.
* `InteractionSig` / `predictNoHands` — the no-hand branch of `predict`.
* `handTargetMode` / `avgTipDist` — the open-hand / fist classification.
* `ParticleData` / `photoWrite` / `photosLoop` / `hoverMeshUpdate` — the
  photo instance loop and the hover-outline update of `LuxuryTree`
  (only the particle fields those computations read — scatter position,
  tree position, scale — are modelled; colors and initial rotations do not
  enter these computations).
* `dustDrift` / `dustStep` — the ambient gold-dust radial spring update of
  `AmbientSystem`.
-/

/-! ## Core enums and state (src/types.ts) -/

/- The binary tree mode, `TreeState` in src/types.ts. -/
inductive TreeState where
  | CHAOS : TreeState
  | FORMED : TreeState
deriving DecidableEq, Repr

/-! ## Mode-confirmation poll (App, Overlay.tsx part: src/App.tsx) -/

/- One execution of the 100ms poll body:
   `const target = interactionRef.current.targetMode;
    if (target && target !== treeState) setTreeState(target);`
   Returns the committed mode after the poll. -/
def pollStep (targetMode : Option TreeState) (committed : TreeState) : TreeState :=
  match targetMode with
  | none => committed
  | some t => if t = committed then committed else t

/- The value left in `targetMode` after a sequence of writes performed by the
   gesture producer during one poll interval: the latest write wins
   (each write overwrites the field). -/
def writesResult (v0 : Option TreeState) : List (Option TreeState) → Option TreeState
  | [] => v0
  | w :: rest => writesResult w rest

/- The mode committed at the end of a poll interval: the writes of the
   interval land in the shared field, then the single poll runs. -/
def pollInterval (v0 : Option TreeState) (ws : List (Option TreeState)) (c : TreeState) : TreeState :=
  pollStep (writesResult v0 ws) c

/-! ## One-shot focus trigger (LuxuryTree useFrame, Experience.tsx) -/

/- The render-tick-visible interaction state relevant to the focus toggle. -/
structure FocusState where
  triggerFocus : Bool
  focusId : Option Nat
deriving DecidableEq, Repr

/- One render tick of the focus logic in `LuxuryTree`'s `useFrame`:
   `if (interactionRef.current.triggerFocus) {
      if (focusId === null) setFocusId(random photo id) else setFocusId(null);
      interactionRef.current.triggerFocus = false; }`
   The random id drawn when focus is entered is the argument `rid`. -/
def focusTick (rid : Nat) (s : FocusState) : FocusState :=
  if s.triggerFocus then
    { triggerFocus := false,
      focusId := match s.focusId with
        | none => some rid
        | some _ => none }
  else s

/- The producer side of a tick: the gesture loop may set `triggerFocus := true`
   just before the render tick observes the shared state. -/
def tickPre (s : FocusState) (a : Bool) : FocusState :=
  if a then { s with triggerFocus := true } else s

/- One full tick: optional producer assertion, then the render-tick consumer. -/
def tickRun (s : FocusState) (e : Bool × Nat) : FocusState :=
  focusTick e.2 (tickPre s e.1)

/- State after a sequence of ticks. -/
def runTicks (s : FocusState) : List (Bool × Nat) → FocusState
  | [] => s
  | e :: rest => runTicks (tickRun s e) rest

/- Number of ticks at which the focus state toggles between null and
   non-null over a sequence of ticks. -/
def toggleCount (s : FocusState) : List (Bool × Nat) → Nat
  | [] => 0
  | e :: rest =>
    (if (tickRun s e).focusId.isSome = s.focusId.isSome then 0 else 1)
      + toggleCount (tickRun s e) rest

/-! ## Double-pinch derivation (HandController.predict) -/

/- The pinch bookkeeping refs of `HandController`:
   `lastPinchTime`, `pinchCount`, plus a counter of how many times
   `triggerFocus = true` has been emitted (so "exactly once" is stateable). -/
structure PinchState where
  lastPinchTime : ℚ
  pinchCount : Nat
  triggers : Nat
deriving DecidableEq, Repr

/- Processing of one pinch-start edge (the `!isPinching.current` branch):
   `const now = performance.now();
    if (now - lastPinchTime.current < 500) pinchCount.current++;
    else pinchCount.current = 1;
    lastPinchTime.current = now;
    if (pinchCount.current === 2) { triggerFocus = true; pinchCount.current = 0; }` -/
def pinchStart (now : ℚ) (s : PinchState) : PinchState :=
  let cnt := if now - s.lastPinchTime < 500 then s.pinchCount + 1 else 1
  if cnt = 2 then
    { lastPinchTime := now, pinchCount := 0, triggers := s.triggers + 1 }
  else
    { lastPinchTime := now, pinchCount := cnt, triggers := s.triggers }

/- The initial pinch state (`useRef(0)` for both refs, no trigger emitted). -/
def pinchInit : PinchState := { lastPinchTime := 0, pinchCount := 0, triggers := 0 }

/-! ## Theorems: C5, C2, C3 -/

/- Helper: one assertion-free, flag-false tick is the identity. -/
theorem tickRun_no_assert (s : FocusState) (rid : Nat)
    (h : s.triggerFocus = false) : tickRun s (false, rid) = s := by
  simp [tickRun, tickPre, focusTick, h]

/- Helper: an asserted tick consumes the flag in the same tick and flips
   the focus state. -/
theorem tickRun_assert (s : FocusState) (rid : Nat) :
    (tickRun s (true, rid)).triggerFocus = false
      ∧ ((tickRun s (true, rid)).focusId.isSome = !s.focusId.isSome) := by
  cases s with
  | mk tf fid =>
    cases fid <;> simp [tickRun, tickPre, focusTick]

/- Helper: starting with the flag clear, the number of focus toggles over a
   tick sequence equals the number of producer assertions, and the flag is
   clear again after every tick. -/
theorem toggleCount_eq_assertCount (evs : List (Bool × Nat)) :
    ∀ s : FocusState, s.triggerFocus = false →
      toggleCount s evs = (evs.filter (fun e => e.1)).length
        ∧ (runTicks s evs).triggerFocus = false := by
  induction evs with
  | nil => intro s h; simp [toggleCount, runTicks, h]
  | cons e rest ih =>
    intro s h
    obtain ⟨a, rid⟩ := e
    cases a with
    | false =>
      have hid : tickRun s (false, rid) = s := tickRun_no_assert s rid h
      have := ih s h
      simp [toggleCount, runTicks, hid, this.1, this.2, List.filter]
    | true =>
      have hc := tickRun_assert s rid
      have := ih (tickRun s (true, rid)) hc.1
      constructor
      · have hcond : ¬ ((tickRun s (true, rid)).focusId.isSome = s.focusId.isSome) := by
          rw [hc.2]; cases s.focusId.isSome <;> simp
        rw [toggleCount, if_neg hcond, this.1]
        simp [List.filter_cons]
        omega
      · simp [runTicks, this.2]

/-- C2: over any sequence of render ticks starting with the shared
`triggerFocus` flag clear, if the producer sets the flag true exactly once
then the focus state (null vs non-null `focusId`) toggles exactly once, the
flag is clear again after the run (the consuming tick clears it in the same
tick it acts), and in general one assertion never causes two toggles because
the number of toggles equals the number of assertions. -/
theorem focus_trigger_one_shot (s : FocusState) (evs : List (Bool × Nat))
    (hflag : s.triggerFocus = false)
    (honce : (evs.filter (fun e => e.1)).length = 1) :
    toggleCount s evs = 1 ∧ (runTicks s evs).triggerFocus = false := by
  have h := toggleCount_eq_assertCount evs s hflag
  exact ⟨h.1.trans honce, h.2⟩

/-- Witness for C2: a concrete three-tick run in which the flag is asserted
exactly once (at the second tick) toggles the focus state exactly once. -/
theorem focus_trigger_one_shot_witness :
    (⟨false, none⟩ : FocusState).triggerFocus = false
      ∧ (([(false, 0), (true, 7), (false, 0)].filter (fun e : Bool × Nat => e.1)).length = 1)
      ∧ toggleCount ⟨false, none⟩ [(false, 0), (true, 7), (false, 0)] = 1 :=
  ⟨rfl, by decide,
    (focus_trigger_one_shot ⟨false, none⟩ [(false, 0), (true, 7), (false, 0)]
      rfl (by decide)).1⟩

/-- C5: the mode-confirmation poll commits only when the polled `targetMode`
is non-null and differs from the committed mode: a polled `none` never
commits, polling the already-committed mode never commits, polling a
different non-null mode commits it, and over one poll interval — whatever
sequence of values the producer writes into `targetMode` between the two
polls — the committed mode changes at most once. -/
theorem mode_poll_debounce :
    (∀ c : TreeState, pollStep none c = c)
      ∧ (∀ c : TreeState, pollStep (some c) c = c)
      ∧ (∀ t c : TreeState, t ≠ c → pollStep (some t) c = t)
      ∧ (∀ (v0 : Option TreeState) (ws : List (Option TreeState)) (c : TreeState),
          (if pollInterval v0 ws c = c then 0 else 1) ≤ 1) := by
  refine ⟨fun c => rfl, fun c => by simp [pollStep], fun t c h => by simp [pollStep, h], ?_⟩
  intro v0 ws c
  split <;> simp

/-- Witness for C5: concrete instances — polling `none` commits nothing,
polling `FORMED` while `CHAOS` is committed commits `FORMED`, and a fast
alternation of writes inside one interval yields at most one change. -/
theorem mode_poll_debounce_witness :
    pollStep none TreeState.CHAOS = TreeState.CHAOS
      ∧ pollStep (some TreeState.FORMED) TreeState.CHAOS = TreeState.FORMED
      ∧ (if pollInterval none [some TreeState.FORMED, some TreeState.CHAOS,
            some TreeState.FORMED] TreeState.CHAOS = TreeState.CHAOS then 0 else 1) ≤ 1 :=
  ⟨mode_poll_debounce.1 TreeState.CHAOS,
    mode_poll_debounce.2.2.1 TreeState.FORMED TreeState.CHAOS (by decide),
    mode_poll_debounce.2.2.2 none
      [some TreeState.FORMED, some TreeState.CHAOS, some TreeState.FORMED] TreeState.CHAOS⟩

/-- C3: starting from the initial pinch state, two pinch-start events 300ms
apart make the pinch count reach 2 (the first leaves `pinchCount = 1`, the
second increments it to 2), emit `triggerFocus` exactly once and reset
`pinchCount` to 0; two pinch-start events 800ms apart leave `pinchCount = 1`
at both events (never reaching 2) and emit no trigger. -/
theorem double_pinch_window (t0 : ℚ) :
    (pinchStart t0 pinchInit).pinchCount = 1
      ∧ (pinchStart t0 pinchInit).triggers = 0
      ∧ (pinchStart t0 pinchInit).pinchCount + 1 = 2
      ∧ (pinchStart (t0 + 300) (pinchStart t0 pinchInit)).triggers = 1
      ∧ (pinchStart (t0 + 300) (pinchStart t0 pinchInit)).pinchCount = 0
      ∧ (pinchStart (t0 + 800) (pinchStart t0 pinchInit)).triggers = 0
      ∧ (pinchStart (t0 + 800) (pinchStart t0 pinchInit)).pinchCount = 1 := by
  have h1 : pinchStart t0 pinchInit = ⟨t0, 1, 0⟩ := by
    unfold pinchStart pinchInit
    by_cases h : t0 - 0 < 500 <;> simp [h]
  have h2 : pinchStart (t0 + 300) (⟨t0, 1, 0⟩ : PinchState) = ⟨t0 + 300, 0, 1⟩ := by
    have hd : t0 + 300 - t0 = 300 := by ring
    simp [pinchStart, hd, show (300 : ℚ) < 500 by norm_num]
  have h3 : pinchStart (t0 + 800) (⟨t0, 1, 0⟩ : PinchState) = ⟨t0 + 800, 1, 0⟩ := by
    have hd : t0 + 800 - t0 = 800 := by ring
    simp [pinchStart, hd, show ¬ ((800 : ℚ) < 500) by norm_num]
  rw [h1, h2, h3]
  refine ⟨rfl, rfl, rfl, rfl, rfl, rfl, rfl⟩

/-! ## Damped transition and easing (LuxuryTree / ArixTree useFrame) -/

noncomputable section RealModel

/- three.js `MathUtils.damp(x, y, lambda, dt)`, which is
   `MathUtils.lerp(x, y, 1 - Math.exp(-lambda * dt))` with
   `lerp(x, y, t) = x + (y - x) * t`. -/
def damp (x y lambda dt : ℝ) : ℝ :=
  x + (y - x) * (1 - Real.exp (-(lambda * dt)))

/- The per-frame transition update iterated n frames with fixed target and
   fixed dt: `progress.current = MathUtils.damp(progress.current, target, 2.5, delta)`
   in both `LuxuryTree` and `ArixTree`. -/
def progressIter (target dt p0 : ℝ) : Nat → ℝ
  | 0 => p0
  | n + 1 => damp (progressIter target dt p0 n) target 2.5 dt

/- The smoothstep easing applied to the progress value:
   `const easeT = t * t * (3 - 2 * t)`. -/
def easeT (t : ℝ) : ℝ := t * t * (3 - 2 * t)

/- Helper: the residual `target - progress` is multiplied by
   `exp (-(2.5 * dt))` at each damp step. -/
theorem damp_residual (p target dt : ℝ) :
    target - damp p target 2.5 dt = (target - p) * Real.exp (-(2.5 * dt)) := by
  unfold damp; ring

/- Helper: closed form of the iterated residual. -/
theorem progressIter_residual (target dt p0 : ℝ) (n : Nat) :
    target - progressIter target dt p0 n
      = (target - p0) * (Real.exp (-(2.5 * dt))) ^ n := by
  induction n with
  | zero => simp [progressIter]
  | succ k ih =>
    have hs : progressIter target dt p0 (k + 1)
        = damp (progressIter target dt p0 k) target 2.5 dt := rfl
    rw [hs, damp_residual, ih]; ring

/- Helper: with positive dt the per-step decay factor lies in (0,1). -/
theorem decay_factor_lt_one (dt : ℝ) (hdt : 0 < dt) :
    Real.exp (-(2.5 * dt)) < 1 := by
  have h : Real.exp (-(2.5 * dt)) < Real.exp 0 :=
    Real.exp_lt_exp.mpr (by linarith)
  simpa [Real.exp_zero] using h

/-- C1: with fixed target and fixed dt > 0, the iterated per-frame update
`progress <- damp(progress, target, 2.5, dt)` approaches the target
monotonically and never overshoots: the distance to the target never
increases, every iterate stays between the starting progress and the target,
the iterates are monotone toward the target from either side; and in the
concrete scenario progress 0, target 1, rate 2.5, dt 0.1, progress exceeds
0.9 after 50 steps while never exceeding 1.0 at any step. -/
theorem damp_transition_convergence (target dt p0 : ℝ) (hdt : 0 < dt) :
    (∀ n, |target - progressIter target dt p0 (n + 1)|
        ≤ |target - progressIter target dt p0 n|)
      ∧ (∀ n, min p0 target ≤ progressIter target dt p0 n
          ∧ progressIter target dt p0 n ≤ max p0 target)
      ∧ (p0 ≤ target → ∀ n, progressIter target dt p0 n ≤ progressIter target dt p0 (n + 1))
      ∧ (target ≤ p0 → ∀ n, progressIter target dt p0 (n + 1) ≤ progressIter target dt p0 n)
      ∧ 0.9 < progressIter 1 0.1 0 50
      ∧ (∀ n, progressIter 1 0.1 0 n ≤ 1) := by
  have hE0 : 0 < Real.exp (-(2.5 * dt)) := Real.exp_pos _
  have hE1 : Real.exp (-(2.5 * dt)) < 1 := decay_factor_lt_one dt hdt
  have habs : ∀ n, |target - progressIter target dt p0 (n + 1)|
      ≤ |target - progressIter target dt p0 n| := by
    intro n
    have hs : progressIter target dt p0 (n + 1)
        = damp (progressIter target dt p0 n) target 2.5 dt := rfl
    rw [hs, damp_residual, abs_mul, abs_of_pos hE0]
    exact mul_le_of_le_one_right (abs_nonneg _) hE1.le
  have hbetween : ∀ n, min p0 target ≤ progressIter target dt p0 n
      ∧ progressIter target dt p0 n ≤ max p0 target := by
    intro n
    have hres := progressIter_residual target dt p0 n
    have hpow0 : 0 < (Real.exp (-(2.5 * dt))) ^ n := pow_pos hE0 n
    have hpow1 : (Real.exp (-(2.5 * dt))) ^ n ≤ 1 := pow_le_one₀ hE0.le hE1.le
    rcases le_total p0 target with h | h
    · have hgap : 0 ≤ target - p0 := by linarith
      have hub : target - progressIter target dt p0 n ≤ target - p0 := by
        rw [hres]
        nlinarith
      have hlb : 0 ≤ target - progressIter target dt p0 n := by
        rw [hres]
        positivity
      constructor
      · rw [min_eq_left h]; linarith
      · rw [max_eq_right h]; linarith
    · have hgap : target - p0 ≤ 0 := by linarith
      have hub : target - p0 ≤ target - progressIter target dt p0 n := by
        rw [hres]
        nlinarith
      have hlb : target - progressIter target dt p0 n ≤ 0 := by
        rw [hres]
        nlinarith
      constructor
      · rw [min_eq_right h]; linarith
      · rw [max_eq_left h]; linarith
  have hup : p0 ≤ target → ∀ n, progressIter target dt p0 n ≤ progressIter target dt p0 (n + 1) := by
    intro h n
    have hb := (hbetween n).2
    rw [max_eq_right h] at hb
    have hs : progressIter target dt p0 (n + 1)
        = damp (progressIter target dt p0 n) target 2.5 dt := rfl
    rw [hs]; unfold damp
    nlinarith
  have hdown : target ≤ p0 → ∀ n, progressIter target dt p0 (n + 1) ≤ progressIter target dt p0 n := by
    intro h n
    have hb := (hbetween n).1
    rw [min_eq_right h] at hb
    have hs : progressIter target dt p0 (n + 1)
        = damp (progressIter target dt p0 n) target 2.5 dt := rfl
    rw [hs]; unfold damp
    nlinarith
  have hconc : 0.9 < progressIter 1 0.1 0 50 := by
    have hres := progressIter_residual 1 0.1 0 50
    have hexp : (Real.exp (-(2.5 * 0.1))) ^ 50 = Real.exp (-(12.5 : ℝ)) := by
      rw [← Real.exp_nat_mul]
      norm_num
    have hlow : Real.exp (-(12.5 : ℝ)) < 0.1 := by
      have h1 : (12.5 : ℝ) + 1 ≤ Real.exp 12.5 := Real.add_one_le_exp (12.5 : ℝ)
      have h2 : Real.exp (-(12.5 : ℝ)) = (Real.exp 12.5)⁻¹ := Real.exp_neg _
      rw [h2]
      have hpos : (0 : ℝ) < Real.exp 12.5 := Real.exp_pos _
      have h3 : (Real.exp 12.5)⁻¹ ≤ (13.5 : ℝ)⁻¹ := by
        apply inv_anti₀ (by norm_num)
        linarith
      have h4 : ((13.5 : ℝ))⁻¹ < 0.1 := by norm_num
      linarith
    rw [hexp] at hres
    have : (1 : ℝ) - progressIter 1 0.1 0 50 = Real.exp (-(12.5 : ℝ)) := by
      rw [hres]; ring
    linarith
  have hcap : ∀ n, progressIter 1 0.1 0 n ≤ 1 := by
    intro n
    have hE0c : 0 < Real.exp (-(2.5 * (0.1 : ℝ))) := Real.exp_pos _
    have hres := progressIter_residual 1 0.1 0 n
    have hpow0 : 0 < (Real.exp (-(2.5 * (0.1 : ℝ)))) ^ n := pow_pos hE0c n
    nlinarith
  exact ⟨habs, hbetween, hup, hdown, hconc, hcap⟩

/- Helper facts used to instantiate C1 at the concrete scenario. -/
theorem dt_tenth_pos : (0 : ℝ) < 0.1 := by norm_num

/-- Witness for C1: at target 1, dt 0.1, starting progress 0, the hypothesis
0 < dt holds and after 50 iterations progress exceeds 0.9 while step 17
does not overshoot step 18 nor the cap 1.0. -/
theorem damp_transition_convergence_witness :
    (0 : ℝ) < 0.1
      ∧ 0.9 < progressIter 1 0.1 0 50
      ∧ progressIter 1 0.1 0 17 ≤ 1 :=
  ⟨dt_tenth_pos,
    (damp_transition_convergence 1 0.1 0 dt_tenth_pos).2.2.2.2.1,
    (damp_transition_convergence 1 0.1 0 dt_tenth_pos).2.2.2.2.2 17⟩

/- Helper: the derivative of the smoothstep easing at any point. -/
theorem easeT_hasDerivAt (t : ℝ) : HasDerivAt easeT (6 * t - 6 * t ^ 2) t := by
  have h1 : HasDerivAt (fun x : ℝ => x) 1 t := hasDerivAt_id t
  have h2 : HasDerivAt (fun x : ℝ => x * x) (1 * t + t * 1) t := h1.mul h1
  have h3 : HasDerivAt (fun x : ℝ => 3 - 2 * x) (0 - 2 * 1) t :=
    (hasDerivAt_const t (3 : ℝ)).sub (h1.const_mul 2)
  have h4 : HasDerivAt (fun x : ℝ => x * x * (3 - 2 * x))
      ((1 * t + t * 1) * (3 - 2 * t) + t * t * (0 - 2 * 1)) t := h2.mul h3
  have he : easeT = fun x : ℝ => x * x * (3 - 2 * x) := rfl
  rw [he]
  convert h4 using 1
  ring

/-- C6: the easing `easeT t = t * t * (3 - 2 * t)` satisfies easeT 0 = 0,
easeT 1 = 1, is monotone non-decreasing on [0,1], and has derivative 0 at
both endpoints. -/
theorem easeT_boundary_monotone_flat :
    easeT 0 = 0
      ∧ easeT 1 = 1
      ∧ (∀ a b : ℝ, 0 ≤ a → a ≤ b → b ≤ 1 → easeT a ≤ easeT b)
      ∧ HasDerivAt easeT 0 0
      ∧ HasDerivAt easeT 0 1 := by
  refine ⟨by norm_num [easeT], by norm_num [easeT], ?_, ?_, ?_⟩
  · intro a b ha hab hb1
    unfold easeT
    nlinarith [mul_nonneg ha (sub_nonneg.mpr hab), mul_nonneg (sub_nonneg.mpr hab) (sub_nonneg.mpr hb1),
      mul_nonneg ha (sub_nonneg.mpr hb1), sq_nonneg (a - b), sq_nonneg (a + b)]
  · have h := easeT_hasDerivAt 0
    norm_num at h
    exact h
  · have h := easeT_hasDerivAt 1
    norm_num at h
    exact h

/- Helper facts used to instantiate C6 at concrete points. -/
theorem half_in_unit : (0 : ℝ) ≤ 1 / 2 ∧ (1 : ℝ) / 2 ≤ 1 := by norm_num

/-- Witness for C6: monotonicity instantiated at the concrete pair
a = 1/2, b = 1, together with the boundary values. -/
theorem easeT_boundary_monotone_flat_witness :
    easeT 0 = 0 ∧ easeT 1 = 1 ∧ easeT (1 / 2) ≤ easeT 1 :=
  ⟨easeT_boundary_monotone_flat.1,
    easeT_boundary_monotone_flat.2.1,
    easeT_boundary_monotone_flat.2.2.1 (1 / 2) 1 half_in_unit.1 half_in_unit.2 (le_refl 1)⟩

/-! ## Spatial generators (Experience.tsx LuxuryTree, HandController.tsx ArixTree) -/

/- A 3D point (three.js `Vector3`). -/
structure Vec3 where
  x : ℝ
  y : ℝ
  z : ℝ

/- The LuxuryTree cone generator (Experience.tsx):
   `const y = Math.random() * height;
    const rRadius = (1 - y / height) * maxRadius;
    const r = surfaceOnly ? rRadius * (0.85 + Math.random() * 0.15)
                          : Math.sqrt(Math.random()) * rRadius;
    const theta = Math.random() * Math.PI * 2;
    const spiral = y * 10;
    return new Vector3(r * cos(theta + spiral), y - yOffset, r * sin(theta + spiral));`
   The three `Math.random()` draws are the arguments u1, u2, u3 ∈ [0,1). -/
def randomInCone (height maxRadius yOffset : ℝ) (surfaceOnly : Bool)
    (u1 u2 u3 : ℝ) : Vec3 :=
  let y := u1 * height
  let rRadius := (1 - y / height) * maxRadius
  let r := if surfaceOnly then rRadius * (0.85 + u2 * 0.15) else Real.sqrt u2 * rRadius
  let theta := u3 * Real.pi * 2
  let spiral := y * 10
  ⟨r * Real.cos (theta + spiral), y - yOffset, r * Real.sin (theta + spiral)⟩

/- The ArixTree cone generator (HandController.tsx file, `ArixTree` part):
   `const y = Math.random() * height;
    const r = (1 - y / height) * maxRadius;
    const theta = Math.random() * Math.PI * 2;
    const spiral = y * 5;
    return new Vector3(r * cos(theta + spiral), y - yOffset, r * sin(theta + spiral));` -/
def randomInConeArix (height maxRadius yOffset : ℝ) (u1 u3 : ℝ) : Vec3 :=
  let y := u1 * height
  let r := (1 - y / height) * maxRadius
  let theta := u3 * Real.pi * 2
  let spiral := y * 5
  ⟨r * Real.cos (theta + spiral), y - yOffset, r * Real.sin (theta + spiral)⟩

/- Helper: the horizontal radial distance of a point
   (r cos A, _, r sin A) with r ≥ 0 is r itself. -/
theorem radial_dist_eq (r A : ℝ) (hr : 0 ≤ r) :
    Real.sqrt ((r * Real.cos A) ^ 2 + (r * Real.sin A) ^ 2) = r := by
  have hxz : (r * Real.cos A) ^ 2 + (r * Real.sin A) ^ 2 = r ^ 2 := by
    have hsc := Real.sin_sq_add_cos_sq A
    nlinarith
  rw [hxz, Real.sqrt_sq_eq_abs, abs_of_nonneg hr]

/-- C4: for cone height H > 0, base radius R > 0, any vertical offset and
any random draws u1, u2 ∈ [0,1), every point produced by the formed-cone
generator has pre-offset height y = p.y + yOffset in [0, H) and horizontal
radial distance sqrt (x² + z²) at most R * (1 - y / H) — for the interior
variant, the surfaceOnly variant, and the ArixTree variant — and the
surfaceOnly variant additionally stays in the shell band
[0.85, 1.0] * (R * (1 - y / H)). -/
theorem cone_generator_bounds (H R yOffset u1 u2 u3 : ℝ) (so : Bool)
    (hH : 0 < H) (hR : 0 < R) (h1a : 0 ≤ u1) (h1b : u1 < 1)
    (h2a : 0 ≤ u2) (h2b : u2 < 1) :
    (0 ≤ (randomInCone H R yOffset so u1 u2 u3).y + yOffset
      ∧ (randomInCone H R yOffset so u1 u2 u3).y + yOffset < H)
      ∧ Real.sqrt ((randomInCone H R yOffset so u1 u2 u3).x ^ 2
            + (randomInCone H R yOffset so u1 u2 u3).z ^ 2)
          ≤ R * (1 - ((randomInCone H R yOffset so u1 u2 u3).y + yOffset) / H)
      ∧ (so = true →
          0.85 * (R * (1 - ((randomInCone H R yOffset so u1 u2 u3).y + yOffset) / H))
            ≤ Real.sqrt ((randomInCone H R yOffset so u1 u2 u3).x ^ 2
                + (randomInCone H R yOffset so u1 u2 u3).z ^ 2))
      ∧ (0 ≤ (randomInConeArix H R yOffset u1 u3).y + yOffset
          ∧ (randomInConeArix H R yOffset u1 u3).y + yOffset < H)
      ∧ Real.sqrt ((randomInConeArix H R yOffset u1 u3).x ^ 2
            + (randomInConeArix H R yOffset u1 u3).z ^ 2)
          ≤ R * (1 - ((randomInConeArix H R yOffset u1 u3).y + yOffset) / H) := by
  have hHne : H ≠ 0 := ne_of_gt hH
  have hyH : u1 * H / H = u1 := mul_div_cancel_right₀ u1 hHne
  have hy0 : 0 ≤ u1 * H := mul_nonneg h1a hH.le
  have hyH2 : u1 * H < H := by nlinarith
  have hshrink : 0 < 1 - u1 := by linarith
  have hRR : 0 ≤ (1 - u1) * R := mul_nonneg hshrink.le hR.le
  have hsqrtu2 : Real.sqrt u2 ≤ 1 := Real.sqrt_le_one.mpr h2b.le
  have hsqrtu2nn : 0 ≤ Real.sqrt u2 := Real.sqrt_nonneg u2
  constructor
  · -- height bounds, LuxuryTree variant
    simp only [randomInCone]
    constructor
    · linarith
    · linarith
  have hband : (0 : ℝ) ≤ 0.85 + u2 * 0.15 := by nlinarith
  constructor
  · -- radial bound, LuxuryTree variant (both interior and surface branch)
    simp only [randomInCone]
    have hyoff : u1 * H - yOffset + yOffset = u1 * H := by ring
    rw [hyoff, hyH]
    cases so with
    | false =>
      rw [if_neg (by simp), radial_dist_eq _ _ (mul_nonneg hsqrtu2nn hRR)]
      nlinarith
    | true =>
      rw [if_pos rfl, radial_dist_eq _ _ (mul_nonneg hRR hband)]
      nlinarith
  constructor
  · -- surface shell lower bound
    intro hso
    simp only [randomInCone, hso]
    have hyoff : u1 * H - yOffset + yOffset = u1 * H := by ring
    rw [hyoff, hyH]
    rw [if_pos trivial, radial_dist_eq _ _ (mul_nonneg hRR hband)]
    nlinarith
  constructor
  · -- height bounds, ArixTree variant
    simp only [randomInConeArix]
    constructor
    · linarith
    · linarith
  · -- radial bound, ArixTree variant
    simp only [randomInConeArix]
    have hyoff : u1 * H - yOffset + yOffset = u1 * H := by ring
    rw [hyoff, hyH]
    rw [radial_dist_eq _ _ hRR]
    linarith

/- Helper facts used to instantiate C4 at a concrete input. -/
theorem unit_draw_facts : (0 : ℝ) < 1 ∧ ((0 : ℝ) ≤ 1 / 2 ∧ (1 : ℝ) / 2 < 1) := by norm_num

/-- Witness for C4: the generator at H = 1, R = 1, yOffset = 0,
u1 = u2 = 1/2, u3 = 0, surfaceOnly = true satisfies the height and shell
bounds. -/
theorem cone_generator_bounds_witness :
    (0 : ℝ) < 1 ∧ (0 : ℝ) ≤ 1 / 2 ∧ (1 : ℝ) / 2 < 1
      ∧ (0 ≤ (randomInCone 1 1 0 true (1 / 2) (1 / 2) 0).y + 0
          ∧ (randomInCone 1 1 0 true (1 / 2) (1 / 2) 0).y + 0 < 1) :=
  ⟨unit_draw_facts.1, unit_draw_facts.2.1, unit_draw_facts.2.2,
    (cone_generator_bounds 1 1 0 (1 / 2) (1 / 2) 0 true unit_draw_facts.1
      unit_draw_facts.1 unit_draw_facts.2.1 unit_draw_facts.2.2
      unit_draw_facts.2.1 unit_draw_facts.2.2).1⟩

/-! ## Ambient dust radial spring (AmbientSystem useFrame) -/

/- The unconditional part of the gold-dust update for one particle and one
   frame: rotation about the vertical axis at the particle's angular rate
   plus a small vertical jitter.
   `const cos = Math.cos(angleSpeed * delta); const sin = Math.sin(angleSpeed * delta);
    let nx = px * cos - pz * sin; let nz = px * sin + pz * cos;
    let ny = py + Math.sin(time + phases[i]) * 0.01;` with
   `angleSpeed = 0.2 * speed`. -/
def dustDrift (px py pz speed phase time delta : ℝ) : Vec3 :=
  let angleSpeed := 0.2 * speed
  let c := Real.cos (angleSpeed * delta)
  let s := Real.sin (angleSpeed * delta)
  ⟨px * c - pz * s, py + Real.sin (time + phase) * 0.01, px * s + pz * c⟩

/- The full gold-dust update for one particle and one frame
   (AmbientSystem `useFrame`): after the drift, a radial spring force toward
   `targetR` (6.0 when Formed, 14.0 when Chaos) is applied by normalizing with
   the current radius r — but only when `r > 0.1`:
   `const r = Math.sqrt(px*px + py*py + pz*pz);
    const force = (targetR - r) * 0.5 * delta;
    if (r > 0.1) { nx += (nx / r) * force; ny += (ny / r) * force * 0.1; nz += (nz / r) * force; }` -/
def dustStep (isFormed : Bool) (px py pz speed phase time delta : ℝ) : Vec3 :=
  let r := Real.sqrt (px * px + py * py + pz * pz)
  let n := dustDrift px py pz speed phase time delta
  let targetR : ℝ := if isFormed then 6.0 else 14.0
  let force := (targetR - r) * 0.5 * delta
  if 0.1 < r then
    ⟨n.x + (n.x / r) * force, n.y + (n.y / r) * force * 0.1, n.z + (n.z / r) * force⟩
  else n

/-- C8: in the ambient-dust radial spring update the normalize-and-apply-force
step runs only when the current radius exceeds the epsilon 0.1: when
r ≤ 0.1 the whole force step is skipped and the update is exactly the drift
(rotation plus jitter), and when r > 0.1 the divisor r is bounded away from
zero (0 < 0.1 < r), so no division by a near-zero radius ever occurs. -/
theorem dust_spring_guard (isFormed : Bool) (px py pz speed phase time delta : ℝ) :
    (Real.sqrt (px * px + py * py + pz * pz) ≤ 0.1 →
        dustStep isFormed px py pz speed phase time delta
          = dustDrift px py pz speed phase time delta)
      ∧ (0.1 < Real.sqrt (px * px + py * py + pz * pz) →
          0 < Real.sqrt (px * px + py * py + pz * pz)
            ∧ dustStep isFormed px py pz speed phase time delta
                = (let r := Real.sqrt (px * px + py * py + pz * pz)
                   let n := dustDrift px py pz speed phase time delta
                   let force := ((if isFormed then (6.0 : ℝ) else 14.0) - r) * 0.5 * delta
                   ⟨n.x + (n.x / r) * force, n.y + (n.y / r) * force * 0.1,
                     n.z + (n.z / r) * force⟩)) := by
  constructor
  · intro h
    unfold dustStep
    rw [if_neg (not_lt.mpr h)]
  · intro h
    refine ⟨lt_trans (by norm_num) h, ?_⟩
    unfold dustStep
    rw [if_pos h]

/- Helper: the radius of the origin point is 0, below the epsilon. -/
theorem origin_radius_small : Real.sqrt ((0 : ℝ) * 0 + 0 * 0 + 0 * 0) ≤ 0.1 := by
  rw [show (0 : ℝ) * 0 + 0 * 0 + 0 * 0 = 0 by ring, Real.sqrt_zero]
  norm_num

/-- Witness for C8: at the origin (radius 0 ≤ 0.1) the update equals the
drift alone — the force step is skipped. -/
theorem dust_spring_guard_witness :
    Real.sqrt ((0 : ℝ) * 0 + 0 * 0 + 0 * 0) ≤ 0.1
      ∧ dustStep true 0 0 0 1 0 0 1 = dustDrift 0 0 0 1 0 0 1 :=
  ⟨origin_radius_small,
    (dust_spring_guard true 0 0 0 1 0 0 1).1 origin_radius_small⟩

/-! ## Gesture signal layer (HandController.predict) -/

/- The shared interaction signal structure (`InteractionRef` in src/types.ts). -/
structure InteractionSig where
  rotationVelocity : ℝ
  zoomVelocity : ℝ
  triggerFocus : Bool
  targetMode : Option TreeState

/- The no-hand branch of `predict` (executed when
   `results.landmarks.length === 0`):
   `interactionRef.current.rotationVelocity = 0;
    interactionRef.current.zoomVelocity = 0;`
   No other field of the shared signal is written. -/
def predictNoHands (s : InteractionSig) : InteractionSig :=
  { s with rotationVelocity := 0, zoomVelocity := 0 }

/-- C9: a gesture-processing frame in which no hand is detected produces a
neutral signal: both velocities are set to 0, the one-shot flag and the
requested mode are left untouched (no mode is asserted), and consequently
the frame does not change what the mode-confirmation poll would commit. -/
theorem no_hand_frame_neutral (s : InteractionSig) :
    (predictNoHands s).rotationVelocity = 0
      ∧ (predictNoHands s).zoomVelocity = 0
      ∧ (predictNoHands s).triggerFocus = s.triggerFocus
      ∧ (predictNoHands s).targetMode = s.targetMode
      ∧ (∀ c : TreeState,
          pollStep (predictNoHands s).targetMode c = pollStep s.targetMode c) :=
  ⟨rfl, rfl, rfl, rfl, fun _ => rfl⟩

/- Fingertip landmark indices used by the openness heuristic
   (`[4, 8, 12, 16, 20]`, thumb to pinky tips; index 0 is the wrist). -/
def tipIds : List Nat := [4, 8, 12, 16, 20]

/- The openness heuristic of `predict`: average over the five fingertips of
   the planar distance to the wrist,
   `tips.reduce((acc, tip) => acc + Math.hypot(tip.x - wrist.x, tip.y - wrist.y), 0) / 5`.
   A landmark set is modelled as the function from landmark index to its
   normalized (x, y) image coordinates. -/
def avgTipDist (lm : Nat → ℝ × ℝ) : ℝ :=
  ((tipIds.map (fun i =>
      Real.sqrt (((lm i).1 - (lm 0).1) ^ 2 + ((lm i).2 - (lm 0).2) ^ 2))).sum) / 5

/- The mode written into the shared signal by a frame with a detected hand:
   `if (avgDist < 0.2) targetMode = FORMED;
    else if (avgDist > 0.4) targetMode = CHAOS;
    else targetMode = null;` -/
def handTargetMode (avgDist : ℝ) : Option TreeState :=
  if avgDist < 0.2 then some TreeState.FORMED
  else if 0.4 < avgDist then some TreeState.CHAOS
  else none

/- The end-to-end per-frame mode classification from landmarks. -/
def frameTargetMode (lm : Nat → ℝ × ℝ) : Option TreeState :=
  handTargetMode (avgTipDist lm)

/-- C10 (implicit): on a frame with a detected hand, the requested mode is
FORMED exactly when the average fingertip-to-wrist distance is below 0.2
(closed fist), CHAOS exactly when it is above 0.4 (open hand), and null
exactly in the dead zone [0.2, 0.4] — a closed fist requests the formed tree
and an open hand requests the scattered configuration. -/
theorem openness_mode_mapping (lm : Nat → ℝ × ℝ) :
    (frameTargetMode lm = some TreeState.FORMED ↔ avgTipDist lm < 0.2)
      ∧ (frameTargetMode lm = some TreeState.CHAOS ↔ 0.4 < avgTipDist lm)
      ∧ (frameTargetMode lm = none ↔ 0.2 ≤ avgTipDist lm ∧ avgTipDist lm ≤ 0.4) := by
  unfold frameTargetMode handTargetMode
  set d := avgTipDist lm with hd
  by_cases h1 : d < 0.2
  · rw [if_pos h1]
    refine ⟨⟨fun _ => h1, fun _ => rfl⟩, ⟨fun hc => ?_, fun hc => ?_⟩, ⟨fun hc => ?_, fun hc => ?_⟩⟩
    · exact absurd hc (by simp)
    · linarith
    · exact absurd hc (by simp)
    · linarith
  · rw [if_neg h1]
    by_cases h2 : 0.4 < d
    · rw [if_pos h2]
      refine ⟨⟨fun hc => absurd hc (by simp), fun hc => absurd h1 (by intro h; exact h (by linarith))⟩,
        ⟨fun _ => h2, fun _ => rfl⟩, ⟨fun hc => absurd hc (by simp), fun hc => ?_⟩⟩
      · linarith [hc.2]
    · rw [if_neg h2]
      refine ⟨⟨fun hc => absurd hc (by simp), fun hc => absurd hc h1⟩,
        ⟨fun hc => absurd hc (by simp), fun hc => absurd hc h2⟩,
        ⟨fun _ => ⟨le_of_not_lt h1, le_of_not_lt h2⟩, fun _ => rfl⟩⟩

/-! ## Photo loop and hover outline (LuxuryTree useFrame) -/

/- The number of photo particles, `PHOTO_COUNT = 20`. -/
def PHOTO_COUNT : Nat := 20

/- The per-particle data read by the photo loop and the hover-outline update
   (`ParticleData` in src/types.ts, restricted to the fields those
   computations read: scatter position, tree position, base scale; id, color,
   initial rotation, speed, phase and type do not enter these computations). -/
structure PhotoParticle where
  scatterPosition : Vec3
  treePosition : Vec3
  scale : ℝ

/- three.js `new Vector3().lerpVectors(a, b, t)` : componentwise
   `a + (b - a) * t`. -/
def lerpVec (a b : Vec3) (t : ℝ) : Vec3 :=
  ⟨a.x + (b.x - a.x) * t, a.y + (b.y - a.y) * t, a.z + (b.z - a.z) * t⟩

/- The instance transform written for one photo/frame pair: either the
   zero-scale suppression (the focused photo is drawn by the separate focus
   visual instead) or the normal placement with the 1.15x hover scale-up. -/
inductive PhotoWrite where
  | suppressed : PhotoWrite
  | normal : Vec3 → ℝ → PhotoWrite

/- One iteration of the photo loop body (`photos.forEach((p, i) => ...)`):
   `if (i === focusId) { scale 0 } else {
      curPos = lerp(scatter, tree, easeT); ...;
      let scale = p.scale; if (i === hoveredId && hoveredId !== null) scale *= 1.15; ... }`
   (the lookAt orientation depends only on curPos and is not modelled). -/
def photoWrite (focusId hoveredId : Option Nat) (e : ℝ) (i : Nat)
    (p : PhotoParticle) : PhotoWrite :=
  if some i = focusId then PhotoWrite.suppressed
  else
    PhotoWrite.normal (lerpVec p.scatterPosition p.treePosition e)
      (if some i = hoveredId then p.scale * 1.15 else p.scale)

/- The photo loop over the whole particle list, carrying the forEach index. -/
def photosLoopAux (focusId hoveredId : Option Nat) (e : ℝ) (i : Nat) :
    List PhotoParticle → List PhotoWrite
  | [] => []
  | p :: rest =>
      photoWrite focusId hoveredId e i p :: photosLoopAux focusId hoveredId e (i + 1) rest

/- The full photo loop (indices start at 0). -/
def photosLoop (photos : List PhotoParticle) (focusId hoveredId : Option Nat)
    (e : ℝ) : List PhotoWrite :=
  photosLoopAux focusId hoveredId e 0 photos

/- The result of the hover-outline update. -/
inductive HoverOut where
  | hidden : HoverOut
  | shown : Vec3 → ℝ → HoverOut

/- The hover-outline update of `LuxuryTree`'s `useFrame`:
   `if (hoveredId !== null && hoverMeshRef.current && hoveredId !== focusId) {
      const p = photos[hoveredId];
      ... position/scale from p ...; visible = true;
    } else { visible = false; }`
   The element lookup `photos[hoveredId]` is unguarded in the source: an index
   outside the list yields `undefined` and the following field accesses throw,
   which the embedding models as `none`. -/
def hoverMeshUpdate (photos : List PhotoParticle) (focusId hoveredId : Option Nat)
    (e : ℝ) : Option HoverOut :=
  match hoveredId with
  | none => some HoverOut.hidden
  | some h =>
    if some h = focusId then some HoverOut.hidden
    else
      match photos[h]? with
      | none => none
      | some p =>
          some (HoverOut.shown (lerpVec p.scatterPosition p.treePosition e)
            (p.scale * 1.25))

/- A concrete photo list of the configured length (PHOTO_COUNT = 20), with
   the source's base scale 0.4. -/
def testPhotos : List PhotoParticle :=
  List.replicate PHOTO_COUNT ⟨⟨0, 0, 0⟩, ⟨0, 0, 0⟩, 0.4⟩

/-- Counterexample to C7 as stated: with the full 20-photo list and the
out-of-range hovered id 20 (PHOTO_COUNT ≤ 20), the hover-outline update does
not proceed as a no-op — the unguarded lookup `photos[hoveredId]` fails and
the subsequent field accesses would throw, modelled as the update producing
`none` instead of the hidden-outline no-op result. -/
theorem hover_out_of_range_not_noop :
    testPhotos.length = PHOTO_COUNT
      ∧ PHOTO_COUNT ≤ 20
      ∧ hoverMeshUpdate testPhotos none (some 20) 0 = none
      ∧ hoverMeshUpdate testPhotos none none 0 = some HoverOut.hidden := by
  have hlen : testPhotos.length = PHOTO_COUNT := by
    simp [testPhotos]
  have hget : testPhotos[(20 : Nat)]? = none :=
    List.getElem?_eq_none (by rw [hlen]; exact le_refl 20)
  refine ⟨hlen, le_refl 20, ?_, rfl⟩
  simp [hoverMeshUpdate, hget]

/- Helper: a photo-loop iteration whose index matches neither id writes the
   same transform as with no focus and no hover. -/
theorem photoWrite_no_match (focusId hoveredId : Option Nat) (e : ℝ) (i : Nat)
    (p : PhotoParticle) (hf : some i ≠ focusId) (hh : some i ≠ hoveredId) :
    photoWrite focusId hoveredId e i p = photoWrite none none e i p := by
  unfold photoWrite
  rw [if_neg hf, if_neg hh]
  simp

/- Helper: the photo loop from any starting index ignores focus and hover ids
   that exceed every index it visits. -/
theorem photosLoopAux_out_of_range (e : ℝ) (l : List PhotoParticle) :
    ∀ (i : Nat) (focusId hoveredId : Option Nat),
      (∀ j, focusId = some j → i + l.length ≤ j) →
      (∀ j, hoveredId = some j → i + l.length ≤ j) →
      photosLoopAux focusId hoveredId e i l = photosLoopAux none none e i l := by
  induction l with
  | nil => intro i f h hf hh; rfl
  | cons p rest ih =>
    intro i f h hf hh
    have hfi : some i ≠ f := by
      intro hcontra
      have := hf i hcontra.symm
      simp [List.length_cons] at this
    have hhi : some i ≠ h := by
      intro hcontra
      have := hh i hcontra.symm
      simp [List.length_cons] at this
    have hrest := ih (i + 1) f h
      (fun j hj => by have := hf j hj; simp [List.length_cons] at this ⊢; omega)
      (fun j hj => by have := hh j hj; simp [List.length_cons] at this ⊢; omega)
    simp only [photosLoopAux]
    rw [photoWrite_no_match f h e i p hfi hhi, hrest]

/-- C7 amended: an out-of-range focusedId or hoveredId is a no-op for the
photo/frame instance loop — every written transform equals the one written
with no focus and no hover — but the hover-outline computation is not
guarded: a hovered id at or beyond the list length (and different from the
focus id) makes the unguarded `photos[hoveredId]` lookup fail, modelled as
the update producing `none` (the field accesses on `undefined` would throw)
instead of a no-op. -/
theorem photos_loop_out_of_range_noop (photos : List PhotoParticle)
    (focusId hoveredId : Option Nat) (e : ℝ)
    (hf : ∀ j, focusId = some j → photos.length ≤ j)
    (hh : ∀ j, hoveredId = some j → photos.length ≤ j) :
    photosLoop photos focusId hoveredId e = photosLoop photos none none e
      ∧ (∀ h, hoveredId = some h → hoveredId ≠ focusId →
          hoverMeshUpdate photos focusId hoveredId e = none) := by
  constructor
  · unfold photosLoop
    exact photosLoopAux_out_of_range e photos 0 focusId hoveredId
      (fun j hj => by simpa using hf j hj)
      (fun j hj => by simpa using hh j hj)
  · intro h hhov hne
    subst hhov
    have hget : photos[h]? = none := List.getElem?_eq_none (hh h rfl)
    simp [hoverMeshUpdate, hget, fun hcontra => hne hcontra]

/- Helper: the ids 25 and 30 are out of range for the 20-photo list. -/
theorem oor_25 : ∀ j, (some 25 : Option Nat) = some j → testPhotos.length ≤ j := by
  intro j hj
  injection hj with hj2
  rw [← hj2]
  simp [testPhotos, PHOTO_COUNT]

/- Helper: companion out-of-range fact for the hovered id 30. -/
theorem oor_30 : ∀ j, (some 30 : Option Nat) = some j → testPhotos.length ≤ j := by
  intro j hj
  injection hj with hj2
  rw [← hj2]
  simp [testPhotos, PHOTO_COUNT]

/-- Witness for C7 amended: with the 20-photo list, focus id 25 and hovered
id 30 (both out of range), the photo loop equals the no-focus/no-hover loop
and the hover-outline update crashes on the unguarded lookup. -/
theorem photos_loop_out_of_range_noop_witness :
    photosLoop testPhotos (some 25) (some 30) 0 = photosLoop testPhotos none none 0
      ∧ hoverMeshUpdate testPhotos (some 25) (some 30) 0 = none :=
  ⟨(photos_loop_out_of_range_noop testPhotos (some 25) (some 30) 0 oor_25 oor_30).1,
    (photos_loop_out_of_range_noop testPhotos (some 25) (some 30) 0 oor_25 oor_30).2
      30 rfl (by simp)⟩

end RealModel
